import Mathlib

/-!
Shallow embedding of the RetailFort order-placement storage layer and the
order HTTP route.

Sources embedded:
- src/shared/schema.ts: table shapes (only the columns the verified claims
  observe); decimal(10,2) money columns are integers scaled by 100 and
  decimal(10,3) quantity and stock columns are integers scaled by 1000.
- src/server/storage.ts: DatabaseStorage.createOrder (lines 212-237),
  getLowStockProducts (114-120), getDailySales (263-282),
  createTransaction (258-261).
- src/unnamed/part_003 (server routes): the POST /api/orders handler
  (lines 187-217), including the hard-coded user id and the post-commit
  financial-ledger append.

Database state is a record of row lists plus a fresh-id counter standing in
for gen_random_uuid, a clock standing in for defaultNow, and an append-only
trace of the committed write statements used to state ordering properties.
Postgres constraint enforcement that the TypeScript code relies on is made
explicit: NOT NULL column checks on inserted raw values and the foreign-key
check of order_items.product_id and stock_movements.product_id against the
products table. db.transaction is modelled as: run the write sequence; on
any error return the original state (rollback), otherwise the final state.
-/

/-- Row of the products table (columns observed by the claims: id, user_id,
stock, min_stock). min_stock is nullable in the schema. -/
structure ProductRow where
  id : Nat
  userId : String
  stock : Int
  minStock : Option Int
deriving Repr, DecidableEq

/-- Row of the orders table (columns observed by the claims). The schema
puts no uniqueness constraint on orderNumber. -/
structure OrderRow where
  id : Nat
  orderNumber : String
  customerId : Option Nat
  userId : String
  status : String
  paymentStatus : String
  paymentMethod : Option String
  upiApp : Option String
  totalAmount : Int
deriving Repr, DecidableEq

/-- Row of the order_items table. -/
structure OrderItemRow where
  id : Nat
  orderId : Nat
  productId : Nat
  quantity : Int
  unitPrice : Int
  totalPrice : Int
  gstRate : Int
deriving Repr, DecidableEq

/-- Row of the stock_movements table. -/
structure StockMovementRow where
  id : Nat
  productId : Nat
  userId : String
  type : String
  quantity : Int
  reason : Option String
  orderId : Option Nat
deriving Repr, DecidableEq

/-- Row of the transactions table (the financial ledger). -/
structure TransactionRow where
  id : Nat
  orderId : Option Nat
  customerId : Option Nat
  userId : String
  type : String
  amount : Int
  paymentMethod : String
  upiApp : Option String
  createdAt : Nat
deriving Repr, DecidableEq

/-- One committed write statement, recorded in the database trace. -/
inductive WriteOp where
  | insertOrder (orderId : Nat)
  | insertOrderItem (orderId : Nat) (productId : Nat) (quantity : Int)
  | updateStock (productId : Nat) (delta : Int)
  | insertMovement (productId : Nat) (quantity : Int) (orderId : Nat)
  | insertLedger (txnId : Nat)
deriving Repr, DecidableEq

/-- The relational store: row lists per table, a fresh-id counter standing
in for gen_random_uuid, a clock (ms since epoch) standing in for
defaultNow, and the trace of committed writes. -/
structure DB where
  products : List ProductRow
  orders : List OrderRow
  orderItems : List OrderItemRow
  stockMovements : List StockMovementRow
  transactions : List TransactionRow
  nextId : Nat
  now : Nat
  log : List WriteOp
deriving Repr, DecidableEq

/-- Failure of a write statement inside the storage layer: a foreign-key
violation or a NOT NULL violation raised by Postgres. -/
inductive StorageError where
  | fkViolation
  | notNullViolation
deriving Repr, DecidableEq

/-- Zod schema failure raised by insertOrderSchema.parse. -/
inductive ValidationError where
  | zod
deriving Repr, DecidableEq

/-- Parsed order header as produced by insertOrderSchema.parse: required
columns present, columns with schema defaults filled in. -/
structure InsertOrder where
  orderNumber : String
  customerId : Option Nat
  status : String
  paymentStatus : String
  paymentMethod : Option String
  upiApp : Option String
  totalAmount : Int
deriving Repr, DecidableEq

/-- A line item exactly as the route hands it to storage.createOrder: the
handler does not validate items, so every field may be absent. The
caller may even supply an orderId of its own. -/
structure RawItem where
  orderId : Option Nat
  productId : Option Nat
  quantity : Option Int
  unitPrice : Option Int
  totalPrice : Option Int
  gstRate : Option Int
deriving Repr, DecidableEq

/-- The column values an order_items insert needs. -/
structure ItemVals where
  productId : Nat
  quantity : Int
  unitPrice : Int
  totalPrice : Int
  gstRate : Int
deriving Repr, DecidableEq

/-- The NOT NULL check Postgres applies to an order_items insert:
product_id, quantity, unit_price and total_price are NOT NULL columns;
gst_rate has default 0. -/
def decodeItem (i : RawItem) : Option ItemVals :=
  match i.productId, i.quantity, i.unitPrice, i.totalPrice with
  | some pid, some q, some up, some tp => some ⟨pid, q, up, tp, i.gstRate.getD 0⟩
  | _, _, _, _ => none

/-- Foreign-key check of a product_id reference against the products table. -/
def productExists (db : DB) (pid : Nat) : Bool :=
  db.products.any (fun p => p.id == pid)

/-- The order row built by tx.insert(orders).values(order).returning():
the generated id plus the caller-supplied header columns. -/
def mkOrderRow (db : DB) (o : InsertOrder) (userId : String) : OrderRow :=
  ⟨db.nextId, o.orderNumber, o.customerId, userId, o.status, o.paymentStatus,
    o.paymentMethod, o.upiApp, o.totalAmount⟩

/-- Body of the for-loop of DatabaseStorage.createOrder (storage.ts lines
216-233), the three awaited writes for one item in execution order: insert
the OrderItem row with orderId overridden to the new order id, then update
the product stock by a relative decrement, then insert the StockMovement
row with type out, reason sale, quantity negated, orderId the new order id.
Inserts surface Postgres NOT NULL and foreign-key failures. -/
def itemStep (userId : String) (orderId : Nat) (db : DB) (item : RawItem) :
    Except StorageError DB :=
  match decodeItem item with
  | none => Except.error StorageError.notNullViolation
  | some v =>
    if productExists db v.productId then
      let db1 : DB := { db with
        orderItems := db.orderItems ++
          [⟨db.nextId, orderId, v.productId, v.quantity, v.unitPrice,
            v.totalPrice, v.gstRate⟩],
        nextId := db.nextId + 1,
        log := db.log ++ [WriteOp.insertOrderItem orderId v.productId v.quantity] }
      let db2 : DB := { db1 with
        products := db1.products.map (fun p =>
          if p.id = v.productId then { p with stock := p.stock - v.quantity } else p),
        log := db1.log ++ [WriteOp.updateStock v.productId (-v.quantity)] }
      if productExists db2 v.productId then
        let db3 : DB := { db2 with
          stockMovements := db2.stockMovements ++
            [⟨db2.nextId, v.productId, userId, "out", -v.quantity,
              some "sale", some orderId⟩],
          nextId := db2.nextId + 1,
          log := db2.log ++ [WriteOp.insertMovement v.productId (-v.quantity) orderId] }
        Except.ok db3
      else Except.error StorageError.fkViolation
    else Except.error StorageError.fkViolation

/-- The for-loop of DatabaseStorage.createOrder: run the per-item writes
over the items in the order supplied by the caller, stopping at the first
failure. -/
def createOrderLoop (userId : String) (orderId : Nat) (items : List RawItem)
    (db : DB) : Except StorageError DB :=
  match items with
  | [] => Except.ok db
  | item :: rest =>
    match itemStep userId orderId db item with
    | Except.ok db3 => createOrderLoop userId orderId rest db3
    | Except.error e => Except.error e

/-- DatabaseStorage.createOrder (storage.ts lines 212-237): inside one
db.transaction, insert the order row, then run the per-item sequence; on
any failure the transaction rolls back and the store is unchanged. -/
def createOrder (db : DB) (hdr : InsertOrder) (userId : String)
    (items : List RawItem) : DB × Except StorageError OrderRow :=
  let newOrder := mkOrderRow db hdr userId
  let db0 : DB := { db with
    orders := db.orders ++ [newOrder],
    nextId := db.nextId + 1,
    log := db.log ++ [WriteOp.insertOrder newOrder.id] }
  match createOrderLoop userId newOrder.id items db0 with
  | Except.ok db1 => (db1, Except.ok newOrder)
  | Except.error e => (db, Except.error e)

/-- Column values for a financial-ledger insert. -/
structure InsertTransaction where
  orderId : Option Nat
  customerId : Option Nat
  type : String
  amount : Int
  paymentMethod : String
  upiApp : Option String
deriving Repr, DecidableEq

/-- DatabaseStorage.createTransaction (storage.ts lines 258-261): a plain
single-row insert, not wrapped in any transaction with other writes. -/
def createTransaction (db : DB) (t : InsertTransaction) (userId : String) :
    TransactionRow × DB :=
  let row : TransactionRow := ⟨db.nextId, t.orderId, t.customerId, userId,
    t.type, t.amount, t.paymentMethod, t.upiApp, db.now⟩
  (row, { db with
    transactions := db.transactions ++ [row],
    nextId := db.nextId + 1,
    log := db.log ++ [WriteOp.insertLedger row.id] })

/-- Raw order header as found in the request body, before Zod validation:
every field may be absent. -/
structure RawOrderHdr where
  orderNumber : Option String
  customerId : Option Nat
  status : Option String
  paymentStatus : Option String
  paymentMethod : Option String
  upiApp : Option String
  totalAmount : Option Int
deriving Repr, DecidableEq

/-- insertOrderSchema.parse over the header: order_number and total_amount
are required (NOT NULL, no default); status and payment_status fall back to
their schema defaults; the nullable columns pass through. -/
def parseInsertOrder (raw : RawOrderHdr) : Except ValidationError InsertOrder :=
  match raw.orderNumber, raw.totalAmount with
  | some onum, some ta =>
    Except.ok ⟨onum, raw.customerId, raw.status.getD "pending",
      raw.paymentStatus.getD "pending", raw.paymentMethod, raw.upiApp, ta⟩
  | _, _ => Except.error ValidationError.zod

/-- JavaScript x || dflt over an optional string: absent and the empty
string are falsy. -/
def jsStringOr (x : Option String) (dflt : String) : String :=
  match x with
  | some s => if s = "" then dflt else s
  | none => dflt

/-- The hard-coded user identity used by every route handler. -/
def defaultUserId : String := "user-1"

/-- Outcome of the POST /api/orders handler: 200 with the order, 400 on a
Zod validation failure, 500 on any other failure. -/
inductive ApiResponse where
  | ok (order : OrderRow)
  | validationFailed
  | serverFailed
deriving Repr, DecidableEq

/-- The POST /api/orders handler (routes lines 187-217): Zod-validate the
header only, pass the items through unvalidated, run storage.createOrder,
and on success append the financial-ledger row as a separate post-commit
write when paymentStatus is paid, with paymentMethod defaulted to cash by
the JavaScript or-operator. -/
def postOrders (db : DB) (raw : RawOrderHdr) (items : List RawItem) :
    DB × ApiResponse :=
  match parseInsertOrder raw with
  | Except.error _ => (db, ApiResponse.validationFailed)
  | Except.ok hdr =>
    match createOrder db hdr defaultUserId items with
    | (db1, Except.error _) => (db1, ApiResponse.serverFailed)
    | (db1, Except.ok order) =>
      if order.paymentStatus = "paid" then
        let r := createTransaction db1
          ⟨some order.id, order.customerId, "sale", order.totalAmount,
            jsStringOr order.paymentMethod "cash", order.upiApp⟩ defaultUserId
        (r.2, ApiResponse.ok order)
      else (db1, ApiResponse.ok order)

/-- The SQL predicate stock <= min_stock of getLowStockProducts; with a
NULL min_stock the comparison is NULL, which WHERE does not satisfy. -/
def isLowStock (stock : Int) (minStock : Option Int) : Bool :=
  match minStock with
  | some m => decide (stock ≤ m)
  | none => false

/-- DatabaseStorage.getLowStockProducts (storage.ts lines 114-120): filter
the products of the user by stock <= min_stock at read time. -/
def getLowStockProducts (db : DB) (userId : String) : List ProductRow :=
  db.products.filter (fun p => p.userId == userId && isLowStock p.stock p.minStock)

/-- Result shape of getDailySales. -/
structure DailySalesResult where
  total : Int
  upiTotal : Int
  count : Nat
deriving Repr, DecidableEq

/-- DatabaseStorage.getDailySales (storage.ts lines 263-282). startOfDay is
the local-midnight instant of the requested date in ms; setHours(23,59,59,999)
on the same date gives endOfDay = startOfDay + 86399999 ms. The WHERE clause
keeps the user rows inside the inclusive window; the aggregates are
SUM(CASE WHEN ...) and COUNT(CASE WHEN ...) over those rows. -/
def getDailySales (db : DB) (userId : String) (startOfDay : Nat) : DailySalesResult :=
  let endOfDay := startOfDay + 86399999
  let rows := db.transactions.filter (fun t =>
    t.userId == userId && decide (startOfDay ≤ t.createdAt) &&
      decide (t.createdAt ≤ endOfDay))
  { total := (rows.map (fun t => if t.type = "sale" then t.amount else 0)).sum,
    upiTotal := (rows.map (fun t =>
      if t.type = "sale" ∧ t.paymentMethod = "upi" then t.amount else 0)).sum,
    count := rows.countP (fun t => t.type == "sale") }

/-- Projection of an order-item row to the columns the claims observe:
which order it belongs to, which product, and how much. -/
def oiProj (r : OrderItemRow) : Nat × Nat × Int :=
  (r.orderId, r.productId, r.quantity)

/-- Projection of a stock-movement row to its caller-visible column values
(everything except the generated id). -/
def mvProj (m : StockMovementRow) : String × Int × Option String × Option Nat × String :=
  (m.type, m.quantity, m.reason, m.orderId, m.userId)

/-- Product id of a raw item when it decodes, 0 otherwise. -/
def pidOf (i : RawItem) : Nat :=
  match decodeItem i with
  | some v => v.productId
  | none => 0

/-- Quantity of a raw item when it decodes, 0 otherwise. -/
def qtyOf (i : RawItem) : Int :=
  match decodeItem i with
  | some v => v.quantity
  | none => 0

/-- Contribution of one item to the stock decrement of product pid. -/
def itemQtyFor (pid : Nat) (i : RawItem) : Int :=
  match decodeItem i with
  | some v => if v.productId = pid then v.quantity else 0
  | none => 0

/-- Total quantity the order removes from product pid across all items. -/
def sumQty (pid : Nat) (items : List RawItem) : Int :=
  (items.map (itemQtyFor pid)).sum

/-- The three write statements one item contributes, in execution order. -/
def itemOps (orderId : Nat) (i : RawItem) : List WriteOp :=
  [WriteOp.insertOrderItem orderId (pidOf i) (qtyOf i),
   WriteOp.updateStock (pidOf i) (-(qtyOf i)),
   WriteOp.insertMovement (pidOf i) (-(qtyOf i)) orderId]

/-- Decidable well-formedness of a batch of items against a store: every
item decodes (NOT NULL columns present) and references an existing product. -/
def itemsValid (db : DB) (items : List RawItem) : Bool :=
  items.all (fun i => (decodeItem i).isSome && productExists db (pidOf i))

/-- The store state after the three writes of one successful item step. -/
def itemStepResult (userId : String) (orderId : Nat) (db : DB) (v : ItemVals) : DB :=
  { db with
    orderItems := db.orderItems ++
      [⟨db.nextId, orderId, v.productId, v.quantity, v.unitPrice, v.totalPrice, v.gstRate⟩],
    stockMovements := db.stockMovements ++
      [⟨db.nextId + 1, v.productId, userId, "out", -v.quantity, some "sale", some orderId⟩],
    products := db.products.map (fun p =>
      if p.id = v.productId then { p with stock := p.stock - v.quantity } else p),
    nextId := db.nextId + 2,
    log := db.log ++ [WriteOp.insertOrderItem orderId v.productId v.quantity,
      WriteOp.updateStock v.productId (-v.quantity),
      WriteOp.insertMovement v.productId (-v.quantity) orderId] }

theorem sumQty_nil (pid : Nat) : sumQty pid [] = 0 := rfl

theorem sumQty_cons (pid : Nat) (i : RawItem) (l : List RawItem) :
    sumQty pid (i :: l) = itemQtyFor pid i + sumQty pid l := by
  simp [sumQty]

theorem map_stock_sub_nil (l : List ProductRow) :
    l.map (fun p => { p with stock := p.stock - sumQty p.id [] }) = l := by
  induction l with
  | nil => rfl
  | cons p l ih =>
    have hp : ({ p with stock := p.stock - sumQty p.id [] } : ProductRow) = p := by
      cases p
      simp [sumQty_nil]
    simp [hp, ih]

theorem any_map_id_pres (l : List ProductRow) (f : ProductRow → ProductRow)
    (hf : ∀ p, (f p).id = p.id) (pid : Nat) :
    (l.map f).any (fun p => p.id == pid) = l.any (fun p => p.id == pid) := by
  induction l with
  | nil => rfl
  | cons p l ih => simp [hf, ih]

theorem any_map_stockDec (l : List ProductRow) (pid0 : Nat) (q : Int) (pid : Nat) :
    ((l.map (fun p => if p.id = pid0 then { p with stock := p.stock - q } else p)).any
      (fun p => p.id == pid)) = l.any (fun p => p.id == pid) := by
  apply any_map_id_pres
  intro p
  by_cases h : p.id = pid0 <;> simp [h]

theorem itemStep_eq_ok (userId : String) (orderId : Nat) (db : DB) (item : RawItem)
    (v : ItemVals) (hdec : decodeItem item = some v)
    (hfk : productExists db v.productId = true) :
    itemStep userId orderId db item = Except.ok (itemStepResult userId orderId db v) := by
  have hfk2 : (db.products.map (fun p =>
      if p.id = v.productId then { p with stock := p.stock - v.quantity } else p)).any
        (fun p => p.id == v.productId) = true := by
    rw [any_map_stockDec]
    exact hfk
  simp only [itemStep, hdec, productExists] at *
  rw [if_pos hfk]
  rw [if_pos hfk2]
  simp only [itemStepResult]
  congr 1
  simp [List.append_assoc]

theorem itemStep_ok_char (userId : String) (orderId : Nat) (db : DB) (item : RawItem)
    (db3 : DB) (h : itemStep userId orderId db item = Except.ok db3) :
    ∃ v, decodeItem item = some v ∧ productExists db v.productId = true ∧
      db3 = itemStepResult userId orderId db v := by
  cases hdec : decodeItem item with
  | none =>
    rw [itemStep] at h
    simp [hdec] at h
  | some v =>
    by_cases hfk : productExists db v.productId = true
    · rw [itemStep_eq_ok userId orderId db item v hdec hfk] at h
      injection h with h
      exact ⟨v, rfl, hfk, h.symm⟩
    · have hfk0 : productExists db v.productId = false := by
        simpa using hfk
      rw [itemStep] at h
      simp [hdec, hfk0] at h

theorem map_stock_dec_comp (l : List ProductRow) (v : ItemVals) (item : RawItem)
    (rest : List RawItem) (hdec : decodeItem item = some v) :
    (l.map (fun p =>
        if p.id = v.productId then { p with stock := p.stock - v.quantity } else p)).map
        (fun p => { p with stock := p.stock - sumQty p.id rest })
      = l.map (fun p => { p with stock := p.stock - sumQty p.id (item :: rest) }) := by
  rw [List.map_map]
  apply List.map_congr_left
  intro p _
  by_cases h : p.id = v.productId
  · simp [Function.comp, h, sumQty_cons, itemQtyFor, hdec, sub_sub]
  · have h2 : ¬(v.productId = p.id) := fun he => h he.symm
    simp [Function.comp, h, h2, sumQty_cons, itemQtyFor, hdec]

theorem createOrderLoop_ok_char (userId : String) (orderId : Nat) :
    ∀ (items : List RawItem) (db db' : DB),
      createOrderLoop userId orderId items db = Except.ok db' →
      db'.orders = db.orders ∧
      db'.transactions = db.transactions ∧
      db'.now = db.now ∧
      db'.nextId = db.nextId + 2 * items.length ∧
      db'.products = db.products.map (fun p =>
        { p with stock := p.stock - sumQty p.id items }) ∧
      (∃ t1, db'.orderItems = db.orderItems ++ t1 ∧
        t1.map oiProj = items.map (fun i => (orderId, pidOf i, qtyOf i))) ∧
      (∃ t2, db'.stockMovements = db.stockMovements ++ t2 ∧
        t2.map mvProj = items.map (fun i =>
          ("out", -(qtyOf i), some "sale", some orderId, userId))) ∧
      db'.log = db.log ++ items.flatMap (itemOps orderId) ∧
      (∀ i ∈ items, (decodeItem i).isSome = true) := by
  intro items
  induction items with
  | nil =>
    intro db db' h
    rw [createOrderLoop] at h
    injection h with h
    subst h
    refine ⟨rfl, rfl, rfl, by simp, (map_stock_sub_nil db.products).symm,
      ⟨[], by simp, by simp⟩, ⟨[], by simp, by simp⟩, by simp, by simp⟩
  | cons item rest ih =>
    intro db db' h
    rw [createOrderLoop] at h
    cases hstep : itemStep userId orderId db item with
    | error e => simp [hstep] at h
    | ok db3 =>
      simp only [hstep] at h
      obtain ⟨v, hdec, hfk, hdb3⟩ := itemStep_ok_char userId orderId db item db3 hstep
      obtain ⟨iho, iht, ihn, ihnid, ihpr, ⟨t1, ht1, ht1p⟩, ⟨t2, ht2, ht2p⟩, ihlog, ihdec⟩ :=
        ih db3 db' h
      subst hdb3
      refine ⟨?_, ?_, ?_, ?_, ?_, ?_, ?_, ?_, ?_⟩
      · rw [iho]; rfl
      · rw [iht]; rfl
      · rw [ihn]; rfl
      · rw [ihnid, List.length_cons]
        show db.nextId + 2 + 2 * rest.length = db.nextId + 2 * (rest.length + 1)
        ring
      · rw [ihpr]
        exact map_stock_dec_comp db.products v item rest hdec
      · refine ⟨⟨db.nextId, orderId, v.productId, v.quantity, v.unitPrice,
          v.totalPrice, v.gstRate⟩ :: t1, ?_, ?_⟩
        · rw [ht1]; simp [itemStepResult]
        · simp [oiProj, ht1p, pidOf, qtyOf, hdec]
      · refine ⟨⟨db.nextId + 1, v.productId, userId, "out", -v.quantity,
          some "sale", some orderId⟩ :: t2, ?_, ?_⟩
        · rw [ht2]; simp [itemStepResult]
        · simp [mvProj, ht2p, pidOf, qtyOf, hdec]
      · rw [ihlog]
        simp [itemStepResult, itemOps, pidOf, qtyOf, hdec, List.append_assoc]
      · intro i hi
        rcases List.mem_cons.mp hi with rfl | hi2
        · simp [hdec]
        · exact ihdec i hi2

theorem createOrder_ok_char (db : DB) (hdr : InsertOrder) (userId : String)
    (items : List RawItem) (db' : DB) (o : OrderRow)
    (h : createOrder db hdr userId items = (db', Except.ok o)) :
    o = mkOrderRow db hdr userId ∧
    db'.orders = db.orders ++ [o] ∧
    db'.transactions = db.transactions ∧
    db'.now = db.now ∧
    db'.nextId = db.nextId + 1 + 2 * items.length ∧
    db'.products = db.products.map (fun p =>
      { p with stock := p.stock - sumQty p.id items }) ∧
    (∃ t1, db'.orderItems = db.orderItems ++ t1 ∧
      t1.map oiProj = items.map (fun i => (o.id, pidOf i, qtyOf i))) ∧
    (∃ t2, db'.stockMovements = db.stockMovements ++ t2 ∧
      t2.map mvProj = items.map (fun i =>
        ("out", -(qtyOf i), some "sale", some o.id, userId))) ∧
    db'.log = db.log ++ WriteOp.insertOrder o.id :: items.flatMap (itemOps o.id) ∧
    (∀ i ∈ items, (decodeItem i).isSome = true) := by
  simp only [createOrder] at h
  split at h
  · rename_i db1 hloop
    injection h with h1 h2
    injection h2 with h2
    subst h2
    subst h1
    obtain ⟨cho, cht, chn, chnid, chpr, ⟨t1, ht1, ht1p⟩, ⟨t2, ht2, ht2p⟩, chlog, chdec⟩ :=
      createOrderLoop_ok_char userId (mkOrderRow db hdr userId).id items _ _ hloop
    refine ⟨rfl, ?_, ?_, ?_, ?_, ?_, ⟨t1, ?_, ht1p⟩, ⟨t2, ?_, ht2p⟩, ?_, chdec⟩
    · rw [cho]
    · rw [cht]
    · rw [chn]
    · rw [chnid]
    · rw [chpr]
    · rw [ht1]
    · rw [ht2]
    · rw [chlog]
      simp [List.append_assoc]
  · simp at h

theorem createOrder_error_eq (db : DB) (hdr : InsertOrder) (userId : String)
    (items : List RawItem) (e : StorageError)
    (h : (createOrder db hdr userId items).2 = Except.error e) :
    createOrder db hdr userId items = (db, Except.error e) := by
  simp only [createOrder] at h ⊢
  split at h
  · simp at h
  · rename_i e2 hloop
    simp only at h
    injection h with h
    subst h
    rfl

theorem productExists_createOrder_ok (db : DB) (hdr : InsertOrder) (userId : String)
    (items : List RawItem) (db' : DB) (o : OrderRow)
    (h : createOrder db hdr userId items = (db', Except.ok o)) (pid : Nat) :
    productExists db' pid = productExists db pid := by
  obtain ⟨-, -, -, -, -, hpr, -, -, -, -⟩ := createOrder_ok_char db hdr userId items db' o h
  rw [productExists, productExists, hpr]
  exact any_map_id_pres db.products
    (fun p => { p with stock := p.stock - sumQty p.id items }) (fun p => rfl) pid

theorem createOrderLoop_ok_of_valid (userId : String) (orderId : Nat) :
    ∀ (items : List RawItem) (db : DB),
      (∀ i ∈ items, (decodeItem i).isSome = true ∧ productExists db (pidOf i) = true) →
      ∃ db2, createOrderLoop userId orderId items db = Except.ok db2 := by
  intro items
  induction items with
  | nil =>
    intro db _
    exact ⟨db, rfl⟩
  | cons item rest ih =>
    intro db hv
    obtain ⟨hs, hfk⟩ := hv item (List.mem_cons_self item rest)
    obtain ⟨v, hdec⟩ := Option.isSome_iff_exists.mp hs
    have hpid : pidOf item = v.productId := by simp [pidOf, hdec]
    have hfk2 : productExists db v.productId = true := by rw [← hpid]; exact hfk
    have hstep := itemStep_eq_ok userId orderId db item v hdec hfk2
    have hpe : ∀ pid, productExists (itemStepResult userId orderId db v) pid
        = productExists db pid := by
      intro pid
      rw [productExists, productExists]
      show (db.products.map (fun p =>
        if p.id = v.productId then { p with stock := p.stock - v.quantity } else p)).any
          (fun p => p.id == pid) = db.products.any (fun p => p.id == pid)
      exact any_map_stockDec db.products v.productId v.quantity pid
    obtain ⟨db2, hrest⟩ := ih (itemStepResult userId orderId db v) (fun i hi =>
      ⟨(hv i (List.mem_cons_of_mem item hi)).1, by
        rw [hpe]
        exact (hv i (List.mem_cons_of_mem item hi)).2⟩)
    refine ⟨db2, ?_⟩
    rw [createOrderLoop, hstep]
    exact hrest

theorem createOrder_ok_of_valid (db : DB) (hdr : InsertOrder) (userId : String)
    (items : List RawItem)
    (hv : ∀ i ∈ items, (decodeItem i).isSome = true ∧ productExists db (pidOf i) = true) :
    (createOrder db hdr userId items).2 = Except.ok (mkOrderRow db hdr userId) := by
  obtain ⟨db2, hloop⟩ := createOrderLoop_ok_of_valid userId (mkOrderRow db hdr userId).id items
    ({ db with
      orders := db.orders ++ [mkOrderRow db hdr userId],
      nextId := db.nextId + 1,
      log := db.log ++ [WriteOp.insertOrder (mkOrderRow db hdr userId).id] })
    (fun i hi => ⟨(hv i hi).1, (hv i hi).2⟩)
  simp only [createOrder]
  rw [hloop]

theorem itemsValid_iff (db : DB) (items : List RawItem) :
    itemsValid db items = true ↔
      ∀ i ∈ items, (decodeItem i).isSome = true ∧ productExists db (pidOf i) = true := by
  simp [itemsValid, List.all_eq_true, Bool.and_eq_true]

theorem postOrders_invalid_header (db : DB) (raw : RawOrderHdr) (items : List RawItem)
    (e : ValidationError) (hp : parseInsertOrder raw = Except.error e) :
    postOrders db raw items = (db, ApiResponse.validationFailed) := by
  simp [postOrders, hp]

theorem postOrders_bad_item (db : DB) (raw : RawOrderHdr) (items : List RawItem)
    (hdr : InsertOrder) (hp : parseInsertOrder raw = Except.ok hdr)
    (hbad : ∃ i ∈ items, decodeItem i = none) :
    postOrders db raw items = (db, ApiResponse.serverFailed) := by
  obtain ⟨i, hi, hdec⟩ := hbad
  cases hres : (createOrder db hdr defaultUserId items).2 with
  | ok o =>
    exfalso
    have hpair : createOrder db hdr defaultUserId items
        = ((createOrder db hdr defaultUserId items).1, Except.ok o) := by
      rw [← hres]
    obtain ⟨-, -, -, -, -, -, -, -, -, hdecs⟩ :=
      createOrder_ok_char db hdr defaultUserId items _ o hpair
    have hsome := hdecs i hi
    rw [hdec] at hsome
    simp at hsome
  | error e =>
    have heq := createOrder_error_eq db hdr defaultUserId items e hres
    simp [postOrders, hp, heq]

theorem postOrders_ok (db : DB) (raw : RawOrderHdr) (items : List RawItem)
    (hdr : InsertOrder) (db1 : DB) (o : OrderRow)
    (hp : parseInsertOrder raw = Except.ok hdr)
    (hc : createOrder db hdr defaultUserId items = (db1, Except.ok o)) :
    postOrders db raw items =
      (if o.paymentStatus = "paid" then
        ({ db1 with
          transactions := db1.transactions ++
            [⟨db1.nextId, some o.id, o.customerId, defaultUserId, "sale",
              o.totalAmount, jsStringOr o.paymentMethod "cash", o.upiApp, db1.now⟩],
          nextId := db1.nextId + 1,
          log := db1.log ++ [WriteOp.insertLedger db1.nextId] })
      else db1, ApiResponse.ok o) := by
  by_cases hps : o.paymentStatus = "paid" <;>
    simp [postOrders, hp, hc, createTransaction, hps]

/-- WHERE window filter combined with the sale CASE condition: the rows a
sale aggregate draws from. -/
def isSaleInWindow (u : String) (s : Nat) (t : TransactionRow) : Bool :=
  t.userId == u && decide (s ≤ t.createdAt) && decide (t.createdAt ≤ s + 86399999) &&
    t.type == "sale"

/-- Sale rows in the window paid through upi. -/
def isUpiSaleInWindow (u : String) (s : Nat) (t : TransactionRow) : Bool :=
  isSaleInWindow u s t && t.paymentMethod == "upi"

theorem dailyAgg_total (u : String) (s : Nat) :
    ∀ l : List TransactionRow,
      ((l.filter (fun t => t.userId == u && decide (s ≤ t.createdAt) &&
          decide (t.createdAt ≤ s + 86399999))).map
        (fun t => if t.type = "sale" then t.amount else 0)).sum
      = ((l.filter (isSaleInWindow u s)).map (fun t => t.amount)).sum := by
  intro l
  induction l with
  | nil => rfl
  | cons t l ih =>
    by_cases h1 : t.userId = u <;> by_cases h2 : s ≤ t.createdAt <;>
      by_cases h3 : t.createdAt ≤ s + 86399999 <;> by_cases h4 : t.type = "sale" <;>
      simp [isSaleInWindow, h1, h2, h3, h4, ih]

theorem dailyAgg_upi (u : String) (s : Nat) :
    ∀ l : List TransactionRow,
      ((l.filter (fun t => t.userId == u && decide (s ≤ t.createdAt) &&
          decide (t.createdAt ≤ s + 86399999))).map
        (fun t => if t.type = "sale" ∧ t.paymentMethod = "upi" then t.amount else 0)).sum
      = ((l.filter (isUpiSaleInWindow u s)).map (fun t => t.amount)).sum := by
  intro l
  induction l with
  | nil => rfl
  | cons t l ih =>
    by_cases h1 : t.userId = u <;> by_cases h2 : s ≤ t.createdAt <;>
      by_cases h3 : t.createdAt ≤ s + 86399999 <;> by_cases h4 : t.type = "sale" <;>
      by_cases h5 : t.paymentMethod = "upi" <;>
      simp [isUpiSaleInWindow, isSaleInWindow, h1, h2, h3, h4, h5, ih]

theorem dailyAgg_count (u : String) (s : Nat) :
    ∀ l : List TransactionRow,
      (l.filter (fun t => t.userId == u && decide (s ≤ t.createdAt) &&
          decide (t.createdAt ≤ s + 86399999))).countP (fun t => t.type == "sale")
      = (l.filter (isSaleInWindow u s)).length := by
  intro l
  induction l with
  | nil => rfl
  | cons t l ih =>
    by_cases h1 : t.userId = u <;> by_cases h2 : s ≤ t.createdAt <;>
      by_cases h3 : t.createdAt ≤ s + 86399999 <;> by_cases h4 : t.type = "sale" <;>
      simp [isSaleInWindow, h1, h2, h3, h4, ih, List.countP_cons]

theorem getDailySales_char (db : DB) (u : String) (s : Nat) :
    (getDailySales db u s).total =
      ((db.transactions.filter (isSaleInWindow u s)).map (fun t => t.amount)).sum ∧
    (getDailySales db u s).upiTotal =
      ((db.transactions.filter (isUpiSaleInWindow u s)).map (fun t => t.amount)).sum ∧
    (getDailySales db u s).count = (db.transactions.filter (isSaleInWindow u s)).length := by
  refine ⟨?_, ?_, ?_⟩
  · exact dailyAgg_total u s db.transactions
  · exact dailyAgg_upi u s db.transactions
  · exact dailyAgg_count u s db.transactions

theorem getLowStock_mem (db : DB) (u : String) (p : ProductRow) (m : Int)
    (hm : p.minStock = some m) :
    p ∈ getLowStockProducts db u ↔ p ∈ db.products ∧ p.userId = u ∧ p.stock ≤ m := by
  simp [getLowStockProducts, List.mem_filter, isLowStock, hm, and_assoc]

/-! ### Concrete fixtures used by the witnesses and counterexamples -/

/-- A store with two products of the hard-coded user. -/
def dbBase : DB where
  products := [⟨1, "user-1", 10000, some 2000⟩, ⟨2, "user-1", 5000, none⟩]
  orders := []
  orderItems := []
  stockMovements := []
  transactions := []
  nextId := 100
  now := 1700000000000
  log := []

/-- A fully populated paid order header. -/
def hdrPaid : InsertOrder where
  orderNumber := "ORD-1"
  customerId := some 7
  status := "completed"
  paymentStatus := "paid"
  paymentMethod := some "upi"
  upiApp := some "phonepe"
  totalAmount := 12000

/-- Item for product 1, quantity 2.000, with a bogus caller-supplied
orderId that storage must override. -/
def itemA : RawItem := ⟨some 999, some 1, some 2000, some 5000, some 10000, some 0⟩

/-- Item for product 2, quantity 1.000. -/
def itemB : RawItem := ⟨none, some 2, some 1000, some 2000, some 2000, none⟩

/-- Structurally invalid item: the NOT NULL quantity column is absent. -/
def itemMissingQty : RawItem := ⟨none, some 1, none, some 2000, some 2000, none⟩

/-- Item referencing a product id that is not in the products table. -/
def itemNoProduct : RawItem := ⟨none, some 33, some 1000, some 2000, some 2000, none⟩

/-- Raw request header that parses (order_number and total_amount present). -/
def rawPaid : RawOrderHdr := ⟨some "ORD-1", none, none, some "paid", none, none, some 12000⟩

/-- What insertOrderSchema.parse produces from rawPaid. -/
def rawPaidParsed : InsertOrder :=
  ⟨"ORD-1", none, "pending", "paid", none, none, 12000⟩

/-- Raw request header missing the required order_number column. -/
def rawNoNumber : RawOrderHdr := ⟨none, none, none, none, none, none, some 12000⟩

/-- Paid header with no payment method at all. -/
def rawPaidNoMethod : RawOrderHdr :=
  ⟨some "ORD-9", some 7, some "completed", some "paid", none, none, some 12000⟩

/-- The first-call result state for the shared two-item scenario. -/
def resBase : DB := (createOrder dbBase hdrPaid "user-1" [itemA, itemB]).1

/-- The order row the shared two-item scenario returns. -/
def ordBase : OrderRow := mkOrderRow dbBase hdrPaid "user-1"

/-! ### Claims -/

/-- Claim C1: for every order header and list of N line items, a successful
createOrder call appends exactly one Order row (the returned one), exactly
N OrderItem rows carrying the new order id and the item quantities in
order, and exactly N StockMovement rows each with type out, reason sale,
orderId the new order id, and quantity the negation of its item quantity;
and every product's stock is decremented by exactly the quantities of the
items that reference it. -/
theorem C1_createOrder_effects (db : DB) (hdr : InsertOrder) (userId : String)
    (items : List RawItem) (db' : DB) (o : OrderRow)
    (h : createOrder db hdr userId items = (db', Except.ok o)) :
    db'.orders = db.orders ++ [o] ∧
    db'.orderItems.length = db.orderItems.length + items.length ∧
    db'.orderItems.map oiProj = db.orderItems.map oiProj ++
      items.map (fun i => (o.id, pidOf i, qtyOf i)) ∧
    db'.stockMovements.length = db.stockMovements.length + items.length ∧
    db'.stockMovements.map mvProj = db.stockMovements.map mvProj ++
      items.map (fun i => ("out", -(qtyOf i), some "sale", some o.id, userId)) ∧
    db'.products = db.products.map (fun p =>
      { p with stock := p.stock - sumQty p.id items }) := by
  obtain ⟨-, ho, -, -, -, hpr, ⟨t1, ht1, ht1p⟩, ⟨t2, ht2, ht2p⟩, -, -⟩ :=
    createOrder_ok_char db hdr userId items db' o h
  have hlen1 : t1.length = items.length := by
    have := congrArg List.length ht1p
    simpa using this
  have hlen2 : t2.length = items.length := by
    have := congrArg List.length ht2p
    simpa using this
  refine ⟨ho, ?_, ?_, ?_, ?_, hpr⟩
  · rw [ht1]
    simp [hlen1]
  · rw [ht1, List.map_append, ht1p]
  · rw [ht2]
    simp [hlen2]
  · rw [ht2, List.map_append, ht2p]

/-- Witness for C1: the shared two-item scenario against dbBase. -/
theorem C1_createOrder_effects_witness :
    resBase.orders = dbBase.orders ++ [ordBase] ∧
    resBase.orderItems.length = dbBase.orderItems.length + [itemA, itemB].length ∧
    resBase.orderItems.map oiProj = dbBase.orderItems.map oiProj ++
      [itemA, itemB].map (fun i => (ordBase.id, pidOf i, qtyOf i)) ∧
    resBase.stockMovements.length = dbBase.stockMovements.length + [itemA, itemB].length ∧
    resBase.stockMovements.map mvProj = dbBase.stockMovements.map mvProj ++
      [itemA, itemB].map (fun i => ("out", -(qtyOf i), some "sale", some ordBase.id, "user-1")) ∧
    resBase.products = dbBase.products.map (fun p =>
      { p with stock := p.stock - sumQty p.id [itemA, itemB] }) :=
  C1_createOrder_effects dbBase hdrPaid "user-1" [itemA, itemB] resBase ordBase rfl

/-- Claim C2: whenever any write step of createOrder fails, the whole
transaction rolls back and the caller observes the error with a completely
unchanged store: no order, item, movement or stock change survives. -/
theorem C2_createOrder_rollback (db : DB) (hdr : InsertOrder) (userId : String)
    (items : List RawItem) (e : StorageError)
    (h : (createOrder db hdr userId items).2 = Except.error e) :
    createOrder db hdr userId items = (db, Except.error e) :=
  createOrder_error_eq db hdr userId items e h

/-- Witness for C2: the third item references a missing product, the call
fails with a foreign-key violation, and the store is exactly the input. -/
theorem C2_createOrder_rollback_witness :
    createOrder dbBase hdrPaid "user-1" [itemA, itemB, itemNoProduct]
      = (dbBase, Except.error StorageError.fkViolation) :=
  C2_createOrder_rollback dbBase hdrPaid "user-1" [itemA, itemB, itemNoProduct]
    StorageError.fkViolation rfl

/-- Claim C5: the stock decrement is unconditional: whenever every item is
well-formed and references an existing product, createOrder succeeds and
sets each stock to stock minus the ordered quantity, with no availability
check, so nothing stops the result from being negative. -/
theorem C5_unconditional_decrement (db : DB) (hdr : InsertOrder) (userId : String)
    (items : List RawItem) (hv : itemsValid db items = true) :
    (createOrder db hdr userId items).2 = Except.ok (mkOrderRow db hdr userId) ∧
    (createOrder db hdr userId items).1.products = db.products.map (fun p =>
      { p with stock := p.stock - sumQty p.id items }) := by
  have hv2 := (itemsValid_iff db items).mp hv
  have hok := createOrder_ok_of_valid db hdr userId items hv2
  have hpair : createOrder db hdr userId items
      = ((createOrder db hdr userId items).1, Except.ok (mkOrderRow db hdr userId)) := by
    rw [← hok]
  obtain ⟨-, -, -, -, -, hpr, -, -, -, -⟩ :=
    createOrder_ok_char db hdr userId items _ _ hpair
  exact ⟨hok, hpr⟩

/-- A store holding 2.000 units of product 1. -/
def dbLowStock : DB where
  products := [⟨1, "user-1", 2000, some 0⟩]
  orders := []
  orderItems := []
  stockMovements := []
  transactions := []
  nextId := 50
  now := 1700000000000
  log := []

/-- An order line for 5.000 units of product 1, more than is in stock. -/
def itemOversell : RawItem := ⟨none, some 1, some 5000, some 5000, some 25000, none⟩

/-- Witness for C5: ordering 5.000 units against a stock of 2.000 succeeds
and leaves the stock at -3.000. -/
theorem C5_unconditional_decrement_witness :
    ((createOrder dbLowStock hdrPaid "user-1" [itemOversell]).2
        = Except.ok (mkOrderRow dbLowStock hdrPaid "user-1") ∧
      (createOrder dbLowStock hdrPaid "user-1" [itemOversell]).1.products
        = dbLowStock.products.map (fun p =>
            { p with stock := p.stock - sumQty p.id [itemOversell] })) ∧
    (createOrder dbLowStock hdrPaid "user-1" [itemOversell]).1.products.map
      (fun p => p.stock) = [-3000] :=
  ⟨C5_unconditional_decrement dbLowStock hdrPaid "user-1" [itemOversell] (by decide),
    by decide⟩

/-- Claim C8: order placement is not idempotent: submitting the identical
payload twice succeeds twice, the storage layer enforces no uniqueness on
order numbers, and the result is two independent Order rows with the same
order number but distinct generated identities. -/
theorem C8_no_idempotence (db : DB) (hdr : InsertOrder) (userId : String)
    (items : List RawItem) (hv : itemsValid db items = true) :
    (createOrder db hdr userId items).2 = Except.ok (mkOrderRow db hdr userId) ∧
    (createOrder (createOrder db hdr userId items).1 hdr userId items).2
      = Except.ok (mkOrderRow (createOrder db hdr userId items).1 hdr userId) ∧
    (mkOrderRow db hdr userId).orderNumber = hdr.orderNumber ∧
    (mkOrderRow (createOrder db hdr userId items).1 hdr userId).orderNumber
      = hdr.orderNumber ∧
    (mkOrderRow db hdr userId).id
      ≠ (mkOrderRow (createOrder db hdr userId items).1 hdr userId).id ∧
    (createOrder (createOrder db hdr userId items).1 hdr userId items).1.orders
      = db.orders ++ [mkOrderRow db hdr userId,
          mkOrderRow (createOrder db hdr userId items).1 hdr userId] := by
  have hv2 := (itemsValid_iff db items).mp hv
  have hok1 := createOrder_ok_of_valid db hdr userId items hv2
  have hpair1 : createOrder db hdr userId items
      = ((createOrder db hdr userId items).1, Except.ok (mkOrderRow db hdr userId)) := by
    rw [← hok1]
  obtain ⟨-, ho1, -, -, hnid1, -, -, -, -, -⟩ :=
    createOrder_ok_char db hdr userId items _ _ hpair1
  have hvdb1 : ∀ i ∈ items, (decodeItem i).isSome = true ∧
      productExists (createOrder db hdr userId items).1 (pidOf i) = true := by
    intro i hi
    refine ⟨(hv2 i hi).1, ?_⟩
    rw [productExists_createOrder_ok db hdr userId items _ _ hpair1]
    exact (hv2 i hi).2
  have hok2 := createOrder_ok_of_valid (createOrder db hdr userId items).1 hdr userId items hvdb1
  have hpair2 : createOrder (createOrder db hdr userId items).1 hdr userId items
      = ((createOrder (createOrder db hdr userId items).1 hdr userId items).1,
          Except.ok (mkOrderRow (createOrder db hdr userId items).1 hdr userId)) := by
    rw [← hok2]
  obtain ⟨-, ho2, -, -, -, -, -, -, -, -⟩ :=
    createOrder_ok_char (createOrder db hdr userId items).1 hdr userId items _ _ hpair2
  refine ⟨hok1, hok2, rfl, rfl, ?_, ?_⟩
  · show db.nextId ≠ (createOrder db hdr userId items).1.nextId
    rw [hnid1]
    omega
  · rw [ho2, ho1]
    simp

/-- The state after submitting the same two-item payload a second time. -/
def resBase2 : DB := (createOrder resBase hdrPaid "user-1" [itemA, itemB]).1

/-- Witness for C8: the identical payload submitted twice yields two orders
with the same order number and different ids. -/
theorem C8_no_idempotence_witness :
    (createOrder dbBase hdrPaid "user-1" [itemA, itemB]).2
      = Except.ok (mkOrderRow dbBase hdrPaid "user-1") ∧
    (createOrder (createOrder dbBase hdrPaid "user-1" [itemA, itemB]).1 hdrPaid "user-1"
        [itemA, itemB]).2
      = Except.ok (mkOrderRow (createOrder dbBase hdrPaid "user-1" [itemA, itemB]).1
          hdrPaid "user-1") ∧
    (mkOrderRow dbBase hdrPaid "user-1").orderNumber = hdrPaid.orderNumber ∧
    (mkOrderRow (createOrder dbBase hdrPaid "user-1" [itemA, itemB]).1 hdrPaid
        "user-1").orderNumber = hdrPaid.orderNumber ∧
    (mkOrderRow dbBase hdrPaid "user-1").id
      ≠ (mkOrderRow (createOrder dbBase hdrPaid "user-1" [itemA, itemB]).1 hdrPaid "user-1").id ∧
    (createOrder (createOrder dbBase hdrPaid "user-1" [itemA, itemB]).1 hdrPaid "user-1"
        [itemA, itemB]).1.orders
      = dbBase.orders ++ [mkOrderRow dbBase hdrPaid "user-1",
          mkOrderRow (createOrder dbBase hdrPaid "user-1" [itemA, itemB]).1 hdrPaid "user-1"] :=
  C8_no_idempotence dbBase hdrPaid "user-1" [itemA, itemB] (by decide)

/-- Claim C9: createOrder processes the line items in the order supplied by
the caller, and the committed write trace per item is: OrderItem insert,
then the relative stock decrement, then the StockMovement insert, all after
the single order insert. -/
theorem C9_write_sequence (db : DB) (hdr : InsertOrder) (userId : String)
    (items : List RawItem) (db' : DB) (o : OrderRow)
    (h : createOrder db hdr userId items = (db', Except.ok o)) :
    db'.log = db.log ++ WriteOp.insertOrder o.id :: items.flatMap (itemOps o.id) := by
  obtain ⟨-, -, -, -, -, -, -, -, hlog, -⟩ :=
    createOrder_ok_char db hdr userId items db' o h
  exact hlog

/-- Witness for C9 at the shared two-item scenario. -/
theorem C9_write_sequence_witness :
    resBase.log = dbBase.log ++
      WriteOp.insertOrder ordBase.id :: [itemA, itemB].flatMap (itemOps ordBase.id) :=
  C9_write_sequence dbBase hdrPaid "user-1" [itemA, itemB] resBase ordBase rfl

/-- Claim C10: every OrderItem row persisted by a successful createOrder
call carries the newly generated order id, whatever orderId the caller
supplied inside the item payload; the pre-existing rows are untouched. -/
theorem C10_orderId_overridden (db : DB) (hdr : InsertOrder) (userId : String)
    (items : List RawItem) (db' : DB) (o : OrderRow)
    (h : createOrder db hdr userId items = (db', Except.ok o)) :
    db'.orderItems.take db.orderItems.length = db.orderItems ∧
    (db'.orderItems.drop db.orderItems.length).all (fun r => r.orderId == o.id) = true := by
  obtain ⟨-, -, -, -, -, -, ⟨t1, ht1, ht1p⟩, -, -, -⟩ :=
    createOrder_ok_char db hdr userId items db' o h
  constructor
  · rw [ht1]
    exact List.take_left db.orderItems t1
  · rw [ht1, List.drop_left, List.all_eq_true]
    intro r hr
    have hmem : oiProj r ∈ t1.map oiProj := List.mem_map_of_mem oiProj hr
    rw [ht1p] at hmem
    obtain ⟨i, -, heq⟩ := List.mem_map.mp hmem
    have hfst : r.orderId = o.id := by
      have := congrArg (fun x => x.1) heq
      simpa [oiProj] using this.symm
    simp [hfst]

/-- Witness for C10: itemA carries the bogus caller-supplied orderId 999,
yet every persisted row points at the generated order id. -/
theorem C10_orderId_overridden_witness :
    (resBase.orderItems.take dbBase.orderItems.length = dbBase.orderItems ∧
      (resBase.orderItems.drop dbBase.orderItems.length).all
        (fun r => r.orderId == ordBase.id) = true) ∧
    itemA.orderId = some 999 ∧ ordBase.id ≠ 999 :=
  ⟨C10_orderId_overridden dbBase hdrPaid "user-1" [itemA, itemB] resBase ordBase rfl,
    by decide, by decide⟩

/-- Counterexample to claim C3: a request whose line item is structurally
invalid (missing NOT NULL quantity) is not rejected with a ValidationError;
the handler only validates the header, so the malformed item reaches the
storage layer and surfaces as a 500 storage failure. -/
theorem C3_item_validation_cex :
    decodeItem itemMissingQty = none ∧
    postOrders dbBase rawPaid [itemMissingQty] = (dbBase, ApiResponse.serverFailed) ∧
    ApiResponse.serverFailed ≠ ApiResponse.validationFailed :=
  ⟨rfl, rfl, by decide⟩

/-- Claim C3 as amended: only the order header is Zod-validated. A header
that fails validation yields a ValidationError (400) before any write, with
the store untouched; a structurally invalid line item is not validated and
instead fails inside the atomic write sequence as a StorageError (500),
also leaving the store untouched after rollback. -/
theorem C3_header_only_validated (db : DB) (raw : RawOrderHdr) (items : List RawItem) :
    (∀ e, parseInsertOrder raw = Except.error e →
      postOrders db raw items = (db, ApiResponse.validationFailed)) ∧
    (∀ hdr, parseInsertOrder raw = Except.ok hdr →
      (∃ i ∈ items, decodeItem i = none) →
      postOrders db raw items = (db, ApiResponse.serverFailed)) :=
  ⟨fun e hp => postOrders_invalid_header db raw items e hp,
    fun hdr hp hbad => postOrders_bad_item db raw items hdr hp hbad⟩

/-- Witness for the amended C3: a header missing its order number is
rejected with 400 and no state change; a well-formed header with a
malformed item yields 500 and no state change. -/
theorem C3_header_only_validated_witness :
    postOrders dbBase rawNoNumber [itemA] = (dbBase, ApiResponse.validationFailed) ∧
    postOrders dbBase rawPaid [itemA, itemMissingQty] = (dbBase, ApiResponse.serverFailed) :=
  ⟨(C3_header_only_validated dbBase rawNoNumber [itemA]).1 ValidationError.zod rfl,
    (C3_header_only_validated dbBase rawPaid [itemA, itemMissingQty]).2
      rawPaidParsed rfl ⟨itemMissingQty, by decide, rfl⟩⟩

/-- Counterexample to claim C4: for a paid order with no payment method,
the appended ledger row carries the literal "cash", not the order's
(absent) payment method, because of the JavaScript or-default. -/
theorem C4_cash_default_cex :
    (postOrders dbBase rawPaidNoMethod [itemA]).1.transactions.map
      (fun t => t.paymentMethod) = ["cash"] ∧
    (postOrders dbBase rawPaidNoMethod [itemA]).1.orders.map
      (fun o => o.paymentMethod) = [none] :=
  ⟨rfl, rfl⟩

/-- Claim C4 as amended: after a successful createOrder, the handler
appends exactly one sale ledger row if and only if the order's
paymentStatus is paid; that row is linked to the order and customer,
carries the order's totalAmount, and carries the order's payment method
defaulted to cash when absent or empty; the append is a separate write
issued after every write of the committed order transaction, so the order
is persisted whether or not the ledger row is. -/
theorem C4_ledger_append (db : DB) (raw : RawOrderHdr) (items : List RawItem)
    (hdr : InsertOrder) (db1 : DB) (o : OrderRow)
    (hp : parseInsertOrder raw = Except.ok hdr)
    (hc : createOrder db hdr defaultUserId items = (db1, Except.ok o)) :
    (postOrders db raw items).2 = ApiResponse.ok o ∧
    o ∈ (postOrders db raw items).1.orders ∧
    (postOrders db raw items).1.transactions =
      (if o.paymentStatus = "paid" then
        db.transactions ++ [⟨db1.nextId, some o.id, o.customerId, defaultUserId, "sale",
          o.totalAmount, jsStringOr o.paymentMethod "cash", o.upiApp, db.now⟩]
      else db.transactions) ∧
    (postOrders db raw items).1.log =
      (db.log ++ WriteOp.insertOrder o.id :: items.flatMap (itemOps o.id)) ++
        (if o.paymentStatus = "paid" then [WriteOp.insertLedger db1.nextId] else []) := by
  obtain ⟨-, ho, ht, hn, -, -, -, -, hlog, -⟩ :=
    createOrder_ok_char db hdr defaultUserId items db1 o hc
  have hpost := postOrders_ok db raw items hdr db1 o hp hc
  by_cases hps : o.paymentStatus = "paid"
  · rw [hpost, if_pos hps]
    refine ⟨rfl, ?_, ?_, ?_⟩
    · show o ∈ db1.orders
      rw [ho]
      simp
    · rw [if_pos hps]
      show db1.transactions ++ _ = _
      rw [ht, hn]
    · rw [if_pos hps]
      show db1.log ++ _ = _
      rw [hlog]
  · rw [hpost, if_neg hps]
    refine ⟨rfl, ?_, ?_, ?_⟩
    · show o ∈ db1.orders
      rw [ho]
      simp
    · rw [if_neg hps]
      exact ht
    · rw [if_neg hps]
      rw [hlog]
      simp

/-- Result state for the C4 witness scenario. -/
def resC4 : DB := (createOrder dbBase rawPaidParsed defaultUserId [itemA]).1

/-- Order row of the C4 witness scenario. -/
def ordC4 : OrderRow := mkOrderRow dbBase rawPaidParsed defaultUserId

/-- Witness for the amended C4: a paid one-item request appends exactly one
sale ledger row after the committed order writes. -/
theorem C4_ledger_append_witness :
    (postOrders dbBase rawPaid [itemA]).2 = ApiResponse.ok ordC4 ∧
    ordC4 ∈ (postOrders dbBase rawPaid [itemA]).1.orders ∧
    (postOrders dbBase rawPaid [itemA]).1.transactions =
      (if ordC4.paymentStatus = "paid" then
        dbBase.transactions ++ [⟨resC4.nextId, some ordC4.id, ordC4.customerId, defaultUserId,
          "sale", ordC4.totalAmount, jsStringOr ordC4.paymentMethod "cash", ordC4.upiApp,
          dbBase.now⟩]
      else dbBase.transactions) ∧
    (postOrders dbBase rawPaid [itemA]).1.log =
      (dbBase.log ++ WriteOp.insertOrder ordC4.id :: [itemA].flatMap (itemOps ordC4.id)) ++
        (if ordC4.paymentStatus = "paid" then [WriteOp.insertLedger resC4.nextId] else []) :=
  C4_ledger_append dbBase rawPaid [itemA] rawPaidParsed resC4 ordC4 rfl rfl

/-- Sale by upi at the very start of the day window. -/
def t6a : TransactionRow := ⟨201, some 9, none, "user-1", "sale", 10000, "upi", some "phonepe", 1000000⟩

/-- Sale by cash in the middle of the day. -/
def t6b : TransactionRow := ⟨202, none, none, "user-1", "sale", 25050, "cash", none, 50000000⟩

/-- Sale by cash at 23:59:59.999 of the day, the inclusive upper boundary. -/
def t6c : TransactionRow := ⟨203, none, none, "user-1", "sale", 4000, "cash", none, 87399999⟩

/-- Sale at 00:00:00.000 of the next day, outside the window. -/
def t6d : TransactionRow := ⟨204, none, none, "user-1", "sale", 7777, "cash", none, 87400000⟩

/-- Non-sale ledger row inside the window, ignored by the aggregates. -/
def t6e : TransactionRow := ⟨205, none, none, "user-1", "purchase", 9999, "cash", none, 50000000⟩

/-- Ledger fixture for the daily-sales aggregate. -/
def db6 : DB where
  products := []
  orders := []
  orderItems := []
  stockMovements := []
  transactions := [t6a, t6b, t6c, t6d, t6e]
  nextId := 300
  now := 1700000000000
  log := []

/-- Claim C6: getDailySales sums Transaction.amount over the sale rows of
the user inside the inclusive window from the given local midnight to
86399999 ms later, with the upi-restricted sum and the sale-row count; on
the fixture, amounts 100.00 + 250.50 + 40.00 with one upi sale give total
390.50, count 3, upiTotal 100.00, the row at 23:59:59.999 is included, and
the row at 00:00:00.000 of the next day is excluded (it is counted by the
next day's window instead). -/
theorem C6_daily_sales :
    (∀ (db : DB) (u : String) (s : Nat),
      (getDailySales db u s).total =
        ((db.transactions.filter (isSaleInWindow u s)).map (fun t => t.amount)).sum ∧
      (getDailySales db u s).upiTotal =
        ((db.transactions.filter (isUpiSaleInWindow u s)).map (fun t => t.amount)).sum ∧
      (getDailySales db u s).count =
        (db.transactions.filter (isSaleInWindow u s)).length) ∧
    getDailySales db6 "user-1" 1000000 = ⟨39050, 10000, 3⟩ ∧
    getDailySales db6 "user-1" 87400000 = ⟨7777, 0, 1⟩ :=
  ⟨fun db u s => getDailySales_char db u s, by decide, by decide⟩

/-- Low stock fixture: well below, exactly at, and just above the minimum. -/
def pBelow : ProductRow := ⟨11, "user-1", 5000, some 10000⟩

/-- Product exactly at its minimum stock. -/
def pAtMin : ProductRow := ⟨12, "user-1", 10000, some 10000⟩

/-- Product just above its minimum stock. -/
def pAbove : ProductRow := ⟨13, "user-1", 11000, some 10000⟩

/-- Store with the three boundary products. -/
def db7 : DB where
  products := [pBelow, pAtMin, pAbove]
  orders := []
  orderItems := []
  stockMovements := []
  transactions := []
  nextId := 400
  now := 1700000000000
  log := []

/-- Claim C7: a product with a set minimum is returned by the low-stock
read exactly when it belongs to the user and its current stock is at most
its minimum, the boundary being inclusive and evaluated at read time on the
current products table. -/
theorem C7_low_stock (db : DB) (u : String) (p : ProductRow) (m : Int)
    (hm : p.minStock = some m) :
    p ∈ getLowStockProducts db u ↔ p ∈ db.products ∧ p.userId = u ∧ p.stock ≤ m :=
  getLowStock_mem db u p m hm

/-- Witness for C7: stock 5 with minimum 10 is low, stock 10 with minimum
10 is low (inclusive boundary), stock 11 with minimum 10 is not. -/
theorem C7_low_stock_witness :
    pBelow ∈ getLowStockProducts db7 "user-1" ∧
    pAtMin ∈ getLowStockProducts db7 "user-1" ∧
    pAbove ∉ getLowStockProducts db7 "user-1" :=
  ⟨(C7_low_stock db7 "user-1" pBelow 10000 rfl).mpr ⟨by decide, rfl, by decide⟩,
    (C7_low_stock db7 "user-1" pAtMin 10000 rfl).mpr ⟨by decide, rfl, by decide⟩,
    fun hmem => absurd ((C7_low_stock db7 "user-1" pAbove 10000 rfl).mp hmem).2.2 (by decide)⟩
